import Mathlib

/-!
Verification of the GigaScape integration module (src/gigascape-integration.ts).

A shallow embedding of the data model and control flow of the module.

External collaborators (the browser builtins `atob` and `JSON.parse`, the
`fetch` responses, the PLY serializer, and the popup UI of the host) are
modelled as explicit parameters and environment fields; the logic of the
module itself — config parsing and validation, scene filtering, error-message
synthesis, and the sequential three-phase save pipeline with its
try/catch/finally structure — is translated directly from the source.

The save handler is modelled as a pure function from its environment to the
ordered trace of observable events (spinner events, fetch calls, popup
displays) together with the unhandled rejection, if any, that escapes it.
-/

namespace GigaScape

/-- A JSON value as produced by `JSON.parse`.  Arrays are omitted: no claim
involves them, and for named property access they behave like the other
non-object cases (the lookup yields `undefined`).  Object field lists are the
properties of the parsed object (keys distinct after JS duplicate-key
resolution). -/
inductive Json where
  | jnull : Json
  | jbool (b : Bool) : Json
  | jnum (n : Int) : Json
  | jstr (s : String) : Json
  | jobj (fields : List (String × Json)) : Json

/-- JS property access `config.k` on a parsed JSON value: a named field of an
object, `undefined` (here `none`) otherwise. -/
def jget (j : Json) (k : String) : Option Json :=
  match j with
  | Json.jobj fields => (fields.find? (fun p => p.1 = k)).map (fun p => p.2)
  | _ => none

/-- JS truthiness of a property-access result: `undefined`, `null`, `false`,
`0` and the empty string are falsy; everything else is truthy. -/
def jtruthy : Option Json → Bool
  | none => false
  | some Json.jnull => false
  | some (Json.jbool b) => b
  | some (Json.jnum n) => !(n = 0)
  | some (Json.jstr s) => !(s = "")
  | some (Json.jobj _) => true

/-- A URL query string, modelled as the ordered list of its key/value pairs
exactly as `URLSearchParams` exposes them.  Model of `URLSearchParams.has`:
is some pair with key `k` present? -/
def queryHas (q : List (String × String)) (k : String) : Bool :=
  q.any (fun p => p.1 = k)

/-- Model of `URLSearchParams.get`: the value of the first pair with key
`k`, or `none`. -/
def getParam (q : List (String × String)) (k : String) : Option String :=
  (q.find? (fun p => p.1 = k)).map (fun p => p.2)

/-- The function `isGigaScapeMode` from the source: checks the URL query
directly for the presence of the raw `gsConfig` key. -/
def isGigaScapeMode (q : List (String × String)) : Bool :=
  queryHas q ("gsConfig")

/-- Outcome of `parseGsConfig`: the returned value (the parsed config object,
or `null`) together with whether a `console.warn` was emitted. -/
structure ParseOutcome where
  result : Option Json
  warned : Bool

/-- The function `parseGsConfig` from the source.  `atobFn` models the
browser builtin `atob` (`none` = throws on invalid base64) and `jsonParseFn`
models `JSON.parse` (`none` = throws on unparseable input); both are external
builtins, passed as parameters.  The try/catch of the source becomes the
propagation of `none` from either into the warned-`null` outcome; the
required-field check mirrors
`!config.splatId || !config.apiOrigin || !config.authToken`.  The function is
total: every failure mode yields a `ParseOutcome`, never an exception. -/
def parseGsConfig (atobFn : String → Option String)
    (jsonParseFn : String → Option Json)
    (q : List (String × String)) : ParseOutcome :=
  match getParam q ("gsConfig") with
  | none => ⟨none, false⟩
  | some encoded =>
    if encoded = "" then ⟨none, false⟩
    else
      match atobFn encoded with
      | none => ⟨none, true⟩
      | some json =>
        match jsonParseFn json with
        | none => ⟨none, true⟩
        | some config =>
          if !(jtruthy (jget config ("splatId"))) ||
             !(jtruthy (jget config ("apiOrigin"))) ||
             !(jtruthy (jget config ("authToken"))) then
            ⟨none, true⟩
          else
            ⟨some config, false⟩

/-- The `GsConfig` interface: the typed view the module casts the parsed
object to and reads during the save pipeline. -/
structure GsConfig where
  splatId : String
  userId : String
  apiOrigin : String
  authToken : String
deriving DecidableEq, Repr

/-- A splat element as the save pipeline observes it: its `visible` flag and
its `numSplats` content count. -/
structure SplatEl where
  visible : Bool
  numSplats : Nat
deriving DecidableEq, Repr

/-- The scene, restricted to what the module queries: the list returned by
`scene.getElementsByType(ElementType.splat)`. -/
structure SceneModel where
  splatElements : List SplatEl
deriving DecidableEq, Repr

/-- A JS `Error`-like thrown value; `message` is `none` when the thrown value
carries no message property. -/
structure Err where
  message : Option String
deriving DecidableEq, Repr

/-- JS `x || fb` on an optional string: the string when present and truthy
(non-empty), else the fallback. -/
def jsOrElse (v : Option String) (fb : String) : String :=
  match v with
  | some s => if s = "" then fb else s
  | none => fb

/-- How the body of a non-success HTTP response behaves under `res.json()`:
either the promise rejects (`unparseable`), or it resolves to a value whose
`error` property is modelled by `errorField` (`some s` when the property is
the string `s`, `none` when absent). -/
inductive JsonBody where
  | unparseable : JsonBody
  | parsed (errorField : Option String) : JsonBody
deriving DecidableEq, Repr

/-- An HTTP response as the module observes it: `ok`, `status`, and the
behaviour of the body under `res.json()`. -/
structure HttpResponse where
  ok : Bool
  status : Nat
  body : JsonBody
deriving DecidableEq, Repr

/-- The ticket `{ uploadUrl, storagePath }` carried by a successful phase-1
response body. -/
structure UploadTicket where
  uploadUrl : String
  storagePath : String
deriving DecidableEq, Repr

/-- Observable events of one save invocation, in order. -/
inductive Ev where
  | startSpinner : Ev
  | stopSpinner : Ev
  | serializeCall : Ev
  | fetchUploadUrl (splatId : String) (fileSize : Nat) : Ev
  | fetchPut (uploadUrl : String) (byteLength : Nat) : Ev
  | fetchSaveComplete (splatId : String) (storagePath : String) : Ev
  | popup (ptype header message : String) : Ev
deriving DecidableEq, Repr

/-- A step of the handler: the events it emits, and its result — `ok` or a
thrown/rejected `Err` (the `Except.error` case models a JS exception or
promise rejection propagating). -/
abbrev Step (α : Type) := List Ev × Except Err α

/-- Sequencing of `await` inside a try block: run `x`; on rejection the
events so far are kept and the rejection propagates; on success continue
with `f`. -/
def bindE {α β : Type} (x : Step α) (f : α → Step β) : Step β :=
  match x.2 with
  | Except.error e => (x.1, Except.error e)
  | Except.ok a => (x.1 ++ (f a).1, (f a).2)

/-- External behaviour of the PLY serializer for one invocation: `reject`
models `serializePly` rejecting, and `output` models
`memFs.results.get` on the fixed output key (the byte length of the produced
data, `none` when the key is absent). -/
structure SerializerBehavior where
  reject : Option Err
  output : Option Nat
deriving DecidableEq, Repr

/-- The visible, non-empty splat elements, exactly as filtered by
`serializeSceneToPly`. -/
def visibleNonEmptySplats (scene : SceneModel) : List SplatEl :=
  (scene.splatElements.filter (fun s => s.visible)).filter
    (fun s => s.numSplats > 0)

/-- The function `serializeSceneToPly` from the source: filter the splat
elements; throw `No splats to save` when none remain (before the external
serializer is invoked); otherwise invoke the serializer (emitting
`serializeCall`), then throw `PLY serialization produced no output` when the
output key is absent, else return the byte buffer (its length). -/
def serializeSceneToPly (scene : SceneModel) (ext : SerializerBehavior) :
    Step Nat :=
  if (visibleNonEmptySplats scene).length = 0 then
    ([], Except.error ⟨some ("No splats to save")⟩)
  else
    ([Ev.serializeCall],
      match ext.reject with
      | some e => Except.error e
      | none =>
        match ext.output with
        | some n => Except.ok n
        | none => Except.error ⟨some ("PLY serialization produced no output")⟩)

/-- The error message `getUploadUrl` synthesizes for a non-success response:
`err.error || fallback`, where `err` is the parsed body, or
`{ error: "HTTP <status>" }` when the body fails to parse. -/
def uploadUrlFailMsg (r : HttpResponse) : String :=
  match r.body with
  | JsonBody.unparseable =>
    jsOrElse (some ("HTTP " ++ toString r.status))
      ("Failed to get upload URL (" ++ toString r.status ++ ")")
  | JsonBody.parsed ef =>
    jsOrElse ef ("Failed to get upload URL (" ++ toString r.status ++ ")")

/-- The error message `notifySaveComplete` synthesizes: same policy as
phase 1 with its own fallback template. -/
def notifyFailMsg (r : HttpResponse) : String :=
  match r.body with
  | JsonBody.unparseable =>
    jsOrElse (some ("HTTP " ++ toString r.status))
      ("Save notification failed (" ++ toString r.status ++ ")")
  | JsonBody.parsed ef =>
    jsOrElse ef ("Save notification failed (" ++ toString r.status ++ ")")

/-- The function `getUploadUrl` from the source: POST `{splatId, fileSize}`
to the upload-url endpoint; on success the body yields the ticket; on
non-success throw the synthesized message. -/
def getUploadUrl (cfg : GsConfig) (fileSize : Nat) (r : HttpResponse)
    (ticket : UploadTicket) : Step UploadTicket :=
  ([Ev.fetchUploadUrl cfg.splatId fileSize],
    if r.ok then Except.ok ticket
    else Except.error ⟨some (uploadUrlFailMsg r)⟩)

/-- The function `uploadToGcs` from the source: PUT the bytes to the signed
URL; on non-success throw `Upload to GCS failed (<status>)`.  The response
body is never read. -/
def uploadToGcs (uploadUrl : String) (byteLength : Nat) (r : HttpResponse) :
    Step Unit :=
  ([Ev.fetchPut uploadUrl byteLength],
    if r.ok then Except.ok ()
    else Except.error
      ⟨some ("Upload to GCS failed (" ++ toString r.status ++ ")")⟩)

/-- The function `notifySaveComplete` from the source: POST
`{splatId, storagePath}` to the save-complete endpoint; on non-success throw
the synthesized message. -/
def notifySaveComplete (cfg : GsConfig) (storagePath : String)
    (r : HttpResponse) : Step Unit :=
  ([Ev.fetchSaveComplete cfg.splatId storagePath],
    if r.ok then Except.ok ()
    else Except.error ⟨some (notifyFailMsg r)⟩)

/-- Model of `events.invoke` on the popup channel: emits the popup event; the
handler of the host may itself reject (`throwBehavior`). -/
def invokeShowPopup (ptype header message : String)
    (throwBehavior : Option Err) : Step Unit :=
  ([Ev.popup ptype header message],
    match throwBehavior with
    | some e => Except.error e
    | none => Except.ok ())

/-- Environment of one save invocation: the behaviour of the external
serializer, the three HTTP responses (with the phase-1 success ticket), and
whether each popup display itself rejects. -/
structure SaveEnv where
  serializer : SerializerBehavior
  r1 : HttpResponse
  ticket : UploadTicket
  r2 : HttpResponse
  r3 : HttpResponse
  successPopupThrow : Option Err
  errorPopupThrow : Option Err
deriving DecidableEq, Repr

/-- The message the catch block displays:
`error.message || <the fixed unknown-error fallback>`. -/
def errMessage (e : Err) : String :=
  jsOrElse e.message ("Unknown error while saving to GigaScape")

/-- The try block of the save handler: serialize, then the three phases in
sequence, then the success popup.  A rejection anywhere propagates and skips
the rest. -/
def saveTryBody (scene : SceneModel) (cfg : GsConfig) (env : SaveEnv) :
    Step Unit :=
  bindE (serializeSceneToPly scene env.serializer) (fun plyLen =>
    bindE (getUploadUrl cfg plyLen env.r1 env.ticket) (fun t =>
      bindE (uploadToGcs t.uploadUrl plyLen env.r2) (fun _ =>
        bindE (notifySaveComplete cfg t.storagePath env.r3) (fun _ =>
          invokeShowPopup ("info") ("Saved to GigaScape")
            ("Your edited splat has been saved. Return to your library to create tiles.")
            env.successPopupThrow))))

/-- The save handler registered by `initGigaScapeIntegration` under the
`gigascape:save` name: fire `startSpinner`; run the try body; on rejection
show the error popup (which may itself reject — that rejection escapes); in
all cases (finally) fire `stopSpinner`.  Returns the event trace and the
unhandled rejection escaping the handler, if any. -/
def gigascapeSave (scene : SceneModel) (cfg : GsConfig) (env : SaveEnv) :
    List Ev × Option Err :=
  let tb := saveTryBody scene cfg env
  let handled : List Ev × Option Err :=
    match tb.2 with
    | Except.ok _ => (tb.1, none)
    | Except.error e =>
      let p := invokeShowPopup ("error") ("Save Failed") (errMessage e)
        env.errorPopupThrow
      (tb.1 ++ p.1,
        match p.2 with
        | Except.ok _ => none
        | Except.error e2 => some e2)
  (Ev.startSpinner :: (handled.1 ++ [Ev.stopSpinner]), handled.2)

/-- Event classifier: is this the spinner-start event? -/
def isStartSpinner : Ev → Bool
  | Ev.startSpinner => true
  | _ => false

/-- Event classifier: is this the spinner-stop event? -/
def isStopSpinner : Ev → Bool
  | Ev.stopSpinner => true
  | _ => false

/-- Event classifier: is this the external-serializer invocation? -/
def isSerializeCall : Ev → Bool
  | Ev.serializeCall => true
  | _ => false

/-- Event classifier: is this the phase-2 PUT? -/
def isPut : Ev → Bool
  | Ev.fetchPut _ _ => true
  | _ => false

/-- Event classifier: is this the phase-3 confirmation POST? -/
def isSaveCompleteCall : Ev → Bool
  | Ev.fetchSaveComplete _ _ => true
  | _ => false

/-- Event classifier: is this any network (fetch) call? -/
def isFetchEv : Ev → Bool
  | Ev.fetchUploadUrl _ _ => true
  | Ev.fetchPut _ _ => true
  | Ev.fetchSaveComplete _ _ => true
  | _ => false

/-- Event classifier: is this a popup display? -/
def isPopup : Ev → Bool
  | Ev.popup _ _ _ => true
  | _ => false

/-- Number of events in a trace satisfying `p`. -/
def countEv (p : Ev → Bool) (t : List Ev) : Nat :=
  (t.filter p).length

/-- The last popup event of a trace. -/
def lastPopup (t : List Ev) : Option Ev :=
  (t.filter isPopup).getLast?

/-! ## Helper lemmas -/

lemma countEv_append (p : Ev → Bool) (a b : List Ev) :
    countEv p (a ++ b) = countEv p a + countEv p b := by
  simp [countEv, List.filter_append]

lemma countEv_bindE_zero {α β : Type} (p : Ev → Bool) (x : Step α)
    (f : α → Step β) (hx : countEv p x.1 = 0)
    (hf : ∀ a, x.2 = Except.ok a → countEv p (f a).1 = 0) :
    countEv p (bindE x f).1 = 0 := by
  unfold bindE
  cases h : x.2 with
  | ok a => simp [h, countEv_append, hx, hf a h]
  | error e => simp [h, hx]

lemma append_ne_empty (a b : String) (h : a.length ≠ 0) : a ++ b ≠ "" := by
  intro he
  have hl := congrArg String.length he
  simp [String.length_append] at hl
  omega

lemma append3_ne_empty (a b c : String) (h : a.length ≠ 0) :
    a ++ b ++ c ≠ "" := by
  intro he
  have hl := congrArg String.length he
  simp [String.length_append] at hl
  omega

/-! ## Claims about the config resolver -/

/-- C7: `isGigaScapeMode` returns `true` iff the raw query key `gsConfig` is
present among the query pairs, independently of its value (the value `v` is
existentially quantified and unconstrained — in particular it need not decode
or validate as a config). -/
theorem isGigaScapeMode_iff_key_present (q : List (String × String)) :
    isGigaScapeMode q = true ↔ ∃ v, (("gsConfig"), v) ∈ q := by
  simp only [isGigaScapeMode, queryHas, List.any_eq_true, decide_eq_true_eq]
  constructor
  · rintro ⟨⟨k, v⟩, hmem, hk⟩
    dsimp at hk
    subst hk
    exact ⟨v, hmem⟩
  · rintro ⟨v, hv⟩
    exact ⟨(("gsConfig"), v), hv, rfl⟩

/-- C8: on undecodable base64, unparseable JSON, or any of the three required
fields missing or falsy, `parseGsConfig` returns `null` and logs a warning;
being a total function of its inputs, it never raises. -/
theorem parseGsConfig_fails_soft (atobFn : String → Option String)
    (jsonParseFn : String → Option Json) (q : List (String × String))
    (enc : String) (henc : getParam q ("gsConfig") = some enc)
    (hne : enc ≠ "")
    (hbad : atobFn enc = none ∨
      (∃ j, atobFn enc = some j ∧ jsonParseFn j = none) ∨
      (∃ j c, atobFn enc = some j ∧ jsonParseFn j = some c ∧
        (jtruthy (jget c ("splatId")) = false ∨
         jtruthy (jget c ("apiOrigin")) = false ∨
         jtruthy (jget c ("authToken")) = false))) :
    (parseGsConfig atobFn jsonParseFn q).result = none ∧
    (parseGsConfig atobFn jsonParseFn q).warned = true := by
  rcases hbad with h | ⟨j, hj, hp⟩ | ⟨j, c, hj, hp, hfield⟩
  · simp [parseGsConfig, henc, hne, h]
  · simp [parseGsConfig, henc, hne, hj, hp]
  · rcases hfield with hf | hf | hf <;>
      simp [parseGsConfig, henc, hne, hj, hp, hf]

/-- Witness for C8 at a concrete query whose base64 decoding fails. -/
theorem parseGsConfig_fails_soft_witness :
    (parseGsConfig (fun _ => none) (fun _ => none)
        [(("gsConfig"), ("x"))]).result = none ∧
    (parseGsConfig (fun _ => none) (fun _ => none)
        [(("gsConfig"), ("x"))]).warned = true :=
  parseGsConfig_fails_soft _ _ _ ("x") rfl (by decide) (Or.inl rfl)

/-- C9: round trip.  `enc` stands for the base64-of-JSON encoding of the
config object `c` (the hypotheses `hatob`/`hparse` are the standard contracts
of the external `atob`/`JSON.parse` builtins on that encoding); for a config
whose three required fields are truthy, the resolver returns exactly `c`,
without a warning. -/
theorem parseGsConfig_roundTrip (atobFn : String → Option String)
    (jsonParseFn : String → Option Json) (enc jsonStr : String) (c : Json)
    (hne : enc ≠ "") (hatob : atobFn enc = some jsonStr)
    (hparse : jsonParseFn jsonStr = some c)
    (h1 : jtruthy (jget c ("splatId")) = true)
    (h2 : jtruthy (jget c ("apiOrigin")) = true)
    (h3 : jtruthy (jget c ("authToken")) = true) :
    (parseGsConfig atobFn jsonParseFn [(("gsConfig"), enc)]).result = some c ∧
    (parseGsConfig atobFn jsonParseFn [(("gsConfig"), enc)]).warned = false := by
  have hg : getParam [(("gsConfig"), enc)] ("gsConfig") = some enc := rfl
  simp [parseGsConfig, hg, hne, hatob, hparse, h1, h2, h3]

/-- A full valid config object, used to instantiate C9. -/
def roundTripConfig : Json :=
  Json.jobj [(("splatId"), Json.jstr ("a")), (("userId"), Json.jstr ("u")),
    (("apiOrigin"), Json.jstr ("o")), (("authToken"), Json.jstr ("t"))]

/-- Witness for C9 at a concrete encoding and config. -/
theorem parseGsConfig_roundTrip_witness :
    (parseGsConfig (fun s => if s = ("E") then some ("J") else none)
        (fun s => if s = ("J") then some roundTripConfig else none)
        [(("gsConfig"), ("E"))]).result = some roundTripConfig ∧
    (parseGsConfig (fun s => if s = ("E") then some ("J") else none)
        (fun s => if s = ("J") then some roundTripConfig else none)
        [(("gsConfig"), ("E"))]).warned = false :=
  parseGsConfig_roundTrip _ _ ("E") ("J") roundTripConfig (by decide) rfl rfl
    rfl rfl rfl

/-- C10: the resolver never examines `userId`: whenever the three validated
fields are truthy it returns the parsed object `c` as-is, for every `c` —
including objects whose `userId` is missing, empty, or of a non-string
type. -/
theorem parseGsConfig_skips_userId (atobFn : String → Option String)
    (jsonParseFn : String → Option Json) (q : List (String × String))
    (enc jsonStr : String) (c : Json)
    (henc : getParam q ("gsConfig") = some enc) (hne : enc ≠ "")
    (hatob : atobFn enc = some jsonStr)
    (hparse : jsonParseFn jsonStr = some c)
    (h1 : jtruthy (jget c ("splatId")) = true)
    (h2 : jtruthy (jget c ("apiOrigin")) = true)
    (h3 : jtruthy (jget c ("authToken")) = true) :
    (parseGsConfig atobFn jsonParseFn q).result = some c := by
  simp [parseGsConfig, henc, hne, hatob, hparse, h1, h2, h3]

/-- A config object with no `userId` field at all, used to instantiate
C10. -/
def configSansUserId : Json :=
  Json.jobj [(("splatId"), Json.jstr ("a")),
    (("apiOrigin"), Json.jstr ("o")), (("authToken"), Json.jstr ("t"))]

/-- Witness for C10: a config with no `userId` field still resolves. -/
theorem parseGsConfig_skips_userId_witness :
    (parseGsConfig (fun s => if s = ("E") then some ("J") else none)
        (fun s => if s = ("J") then some configSansUserId else none)
        [(("gsConfig"), ("E"))]).result = some configSansUserId :=
  parseGsConfig_skips_userId _ _ _ ("E") ("J") configSansUserId rfl
    (by decide) rfl rfl rfl rfl rfl

/-! ## Claims about the error messages of the network phases -/

/-- C5: a non-success phase-2 PUT always raises exactly
`Upload to GCS failed (<status>)`, whatever the body holds; and when the
pipeline reaches phase 2 (serialization succeeded and phase 1 was ok), that
same string is the message of the displayed error popup. -/
theorem uploadToGcs_failure_message (scene : SceneModel) (cfg : GsConfig)
    (env : SaveEnv) (u : String) (len : Nat) (r : HttpResponse)
    (hok : r.ok = false) :
    (uploadToGcs u len r).2 =
      Except.error ⟨some ("Upload to GCS failed (" ++ toString r.status ++ ")")⟩ ∧
    ((visibleNonEmptySplats scene).length ≠ 0 → env.serializer.reject = none →
      env.serializer.output = some len → env.r1.ok = true → env.r2 = r →
      Ev.popup ("error") ("Save Failed")
          ("Upload to GCS failed (" ++ toString r.status ++ ")") ∈
        (gigascapeSave scene cfg env).1) := by
  constructor
  · simp [uploadToGcs, hok]
  · intro hsc hrej hout h1 h2
    have hserz : serializeSceneToPly scene env.serializer =
        ([Ev.serializeCall], Except.ok len) := by
      simp [serializeSceneToPly, hsc, hrej, hout]
    have hmsg : ("Upload to GCS failed (" ++ toString r.status ++ ")") ≠ "" :=
      append3_ne_empty _ _ _ (by decide)
    have htb : saveTryBody scene cfg env =
        ([Ev.serializeCall, Ev.fetchUploadUrl cfg.splatId len,
          Ev.fetchPut env.ticket.uploadUrl len],
         Except.error
           ⟨some ("Upload to GCS failed (" ++ toString r.status ++ ")")⟩) := by
      unfold saveTryBody
      rw [hserz]
      simp [bindE, getUploadUrl, h1, uploadToGcs, h2, hok]
    simp [gigascapeSave, htb, invokeShowPopup, errMessage, jsOrElse, hmsg]

/-- Witness for C5: an HTTP 500 with unparseable body yields exactly
`Upload to GCS failed (500)`, both as the raised error and as the displayed
popup message. -/
theorem uploadToGcs_failure_message_witness :
    (uploadToGcs ("u") 3 ⟨false, 500, JsonBody.unparseable⟩).2 =
      Except.error ⟨some ("Upload to GCS failed (500)")⟩ ∧
    Ev.popup ("error") ("Save Failed") ("Upload to GCS failed (500)") ∈
      (gigascapeSave ⟨[⟨true, 1⟩]⟩ ⟨("s"), ("w"), ("o"), ("t")⟩
        ⟨⟨none, some 3⟩, ⟨true, 200, JsonBody.parsed none⟩, ⟨("u"), ("p")⟩,
          ⟨false, 500, JsonBody.unparseable⟩, ⟨true, 200, JsonBody.parsed none⟩,
          none, none⟩).1 := by
  have h := uploadToGcs_failure_message ⟨[⟨true, 1⟩]⟩ ⟨("s"), ("w"), ("o"), ("t")⟩
    ⟨⟨none, some 3⟩, ⟨true, 200, JsonBody.parsed none⟩, ⟨("u"), ("p")⟩,
      ⟨false, 500, JsonBody.unparseable⟩, ⟨true, 200, JsonBody.parsed none⟩,
      none, none⟩ ("u") 3 ⟨false, 500, JsonBody.unparseable⟩ rfl
  exact ⟨h.1, h.2 (by decide) rfl rfl rfl rfl⟩

/-- Counterexample to C4 as stated: (a) a non-success phase-2 response whose
body does carry a server-supplied error string (`disk full`) still raises the
templated `Upload to GCS failed (500)` — phase 2 never reads the body; (b) a
non-success phase-1 response with an unparseable body raises `HTTP 403`, not
the templated `Failed to get upload URL (403)`. -/
theorem phase_error_claim_counterexample :
    (uploadToGcs ("https://gcs.example") 10
        ⟨false, 500, JsonBody.parsed (some ("disk full"))⟩).2 =
      Except.error ⟨some ("Upload to GCS failed (500)")⟩ ∧
    ("Upload to GCS failed (500)") ≠ ("disk full") ∧
    (getUploadUrl ⟨("s"), ("w"), ("o"), ("t")⟩ 10
        ⟨false, 403, JsonBody.unparseable⟩ ⟨("u"), ("p")⟩).2 =
      Except.error ⟨some ("HTTP 403")⟩ ∧
    ("HTTP 403") ≠ ("Failed to get upload URL (403)") := by
  exact ⟨rfl, by decide, rfl, by decide⟩

/-- C4 (amended): phases 1 and 3 prefer a server-supplied truthy `error`
string when the body parses as JSON; when the body parses without a truthy
`error` string, they fall back to their templated message; when the body does
not parse, the message is `HTTP <status>`; and phase 2 ignores the body
entirely, always raising `Upload to GCS failed (<status>)`. -/
theorem phase_error_messages (cfg : GsConfig) (n len : Nat)
    (t : UploadTicket) (u sp : String) (r : HttpResponse)
    (hok : r.ok = false) :
    (∀ e, r.body = JsonBody.parsed (some e) → e ≠ "" →
      (getUploadUrl cfg n r t).2 = Except.error ⟨some e⟩ ∧
      (notifySaveComplete cfg sp r).2 = Except.error ⟨some e⟩) ∧
    ((r.body = JsonBody.parsed none ∨ r.body = JsonBody.parsed (some "")) →
      (getUploadUrl cfg n r t).2 =
        Except.error
          ⟨some ("Failed to get upload URL (" ++ toString r.status ++ ")")⟩ ∧
      (notifySaveComplete cfg sp r).2 =
        Except.error
          ⟨some ("Save notification failed (" ++ toString r.status ++ ")")⟩) ∧
    (r.body = JsonBody.unparseable →
      (getUploadUrl cfg n r t).2 =
        Except.error ⟨some ("HTTP " ++ toString r.status)⟩ ∧
      (notifySaveComplete cfg sp r).2 =
        Except.error ⟨some ("HTTP " ++ toString r.status)⟩) ∧
    (uploadToGcs u len r).2 =
      Except.error ⟨some ("Upload to GCS failed (" ++ toString r.status ++ ")")⟩ := by
  have hhttp : ("HTTP " ++ toString r.status) ≠ "" :=
    append_ne_empty _ _ (by decide)
  refine ⟨?_, ?_, ?_, ?_⟩
  · intro e hb he
    constructor <;>
      simp [getUploadUrl, notifySaveComplete, hok, uploadUrlFailMsg,
        notifyFailMsg, hb, jsOrElse, he]
  · intro hb
    rcases hb with hb | hb <;>
      exact ⟨by simp [getUploadUrl, hok, uploadUrlFailMsg, hb, jsOrElse],
        by simp [notifySaveComplete, hok, notifyFailMsg, hb, jsOrElse]⟩
  · intro hb
    constructor <;>
      simp [getUploadUrl, notifySaveComplete, hok, uploadUrlFailMsg,
        notifyFailMsg, hb, jsOrElse, hhttp]
  · simp [uploadToGcs, hok]

/-- Witness for the amended C4, at scenario B of the spec: a phase-1 HTTP
403 whose body is `{"error":"token expired"}` raises exactly
`token expired`. -/
theorem phase_error_messages_witness :
    (getUploadUrl ⟨("s"), ("w"), ("o"), ("t")⟩ 10
        ⟨false, 403, JsonBody.parsed (some ("token expired"))⟩
        ⟨("u"), ("p")⟩).2 =
      Except.error ⟨some ("token expired")⟩ :=
  ((phase_error_messages ⟨("s"), ("w"), ("o"), ("t")⟩ 10 10 ⟨("u"), ("p")⟩
      ("u") ("sp") ⟨false, 403, JsonBody.parsed (some ("token expired"))⟩
      rfl).1 ("token expired") rfl (by decide)).1

/-! ## Trace structure of the save handler -/

lemma gigascapeSave_trace (scene : SceneModel) (cfg : GsConfig)
    (env : SaveEnv) :
    (gigascapeSave scene cfg env).1 =
      Ev.startSpinner ::
        ((saveTryBody scene cfg env).1 ++
          ((match (saveTryBody scene cfg env).2 with
            | Except.ok _ => []
            | Except.error e =>
              [Ev.popup ("error") ("Save Failed") (errMessage e)]) ++
            [Ev.stopSpinner])) := by
  unfold gigascapeSave invokeShowPopup
  cases h : (saveTryBody scene cfg env).2 <;> simp [h]

lemma countEv_saveTryBody_zero (p : Ev → Bool) (scene : SceneModel)
    (cfg : GsConfig) (env : SaveEnv)
    (h1 : p Ev.serializeCall = false)
    (h2 : ∀ s n, p (Ev.fetchUploadUrl s n) = false)
    (h3 : ∀ u n, p (Ev.fetchPut u n) = false)
    (h4 : ∀ s sp, p (Ev.fetchSaveComplete s sp) = false)
    (h5 : ∀ a b c, p (Ev.popup a b c) = false) :
    countEv p (saveTryBody scene cfg env).1 = 0 := by
  unfold saveTryBody
  apply countEv_bindE_zero
  · unfold serializeSceneToPly
    split <;> simp [countEv, h1]
  · intro plyLen _
    apply countEv_bindE_zero
    · simp [countEv, getUploadUrl, h2]
    · intro t _
      apply countEv_bindE_zero
      · simp [countEv, uploadToGcs, h3]
      · intro _ _
        apply countEv_bindE_zero
        · simp [countEv, notifySaveComplete, h4]
        · intro _ _
          simp [countEv, invokeShowPopup, h5]

lemma countEv_gigascapeSave_eq (p : Ev → Bool) (scene : SceneModel)
    (cfg : GsConfig) (env : SaveEnv)
    (hstart : p Ev.startSpinner = false) (hstop : p Ev.stopSpinner = false)
    (hpopup : ∀ a b c, p (Ev.popup a b c) = false) :
    countEv p (gigascapeSave scene cfg env).1 =
      countEv p (saveTryBody scene cfg env).1 := by
  rw [gigascapeSave_trace]
  cases h : (saveTryBody scene cfg env).2 <;>
    simp [h, countEv, List.filter_append, hstart, hstop, hpopup]

lemma countEv_tryBody_zero_of_r1 (p : Ev → Bool) (scene : SceneModel)
    (cfg : GsConfig) (env : SaveEnv) (hr : env.r1.ok = false)
    (h1 : p Ev.serializeCall = false)
    (h2 : ∀ s n, p (Ev.fetchUploadUrl s n) = false) :
    countEv p (saveTryBody scene cfg env).1 = 0 := by
  unfold saveTryBody
  apply countEv_bindE_zero
  · unfold serializeSceneToPly
    split <;> simp [countEv, h1]
  · intro plyLen _
    apply countEv_bindE_zero
    · simp [countEv, getUploadUrl, h2]
    · intro t hok
      exfalso
      simp [getUploadUrl, hr] at hok

lemma countEv_complete_tryBody_of_r2 (scene : SceneModel) (cfg : GsConfig)
    (env : SaveEnv) (hr : env.r2.ok = false) :
    countEv isSaveCompleteCall (saveTryBody scene cfg env).1 = 0 := by
  unfold saveTryBody
  apply countEv_bindE_zero
  · unfold serializeSceneToPly
    split <;> simp [countEv, isSaveCompleteCall]
  · intro plyLen _
    apply countEv_bindE_zero
    · simp [countEv, getUploadUrl, isSaveCompleteCall]
    · intro t _
      apply countEv_bindE_zero
      · simp [countEv, uploadToGcs, isSaveCompleteCall]
      · intro _ hok
        exfalso
        simp [uploadToGcs, hr] at hok

/-! ## Claims about the save-handler control flow -/

/-- C1: when phase 1 responds with a non-success status, neither the phase-2
PUT nor the phase-3 confirmation POST ever appears in the trace of the save
invocation; when phase 2 responds with a non-success status, the phase-3
confirmation never appears. -/
theorem save_phase_sequencing (scene : SceneModel) (cfg : GsConfig)
    (env : SaveEnv) :
    (env.r1.ok = false →
      countEv isPut (gigascapeSave scene cfg env).1 = 0 ∧
      countEv isSaveCompleteCall (gigascapeSave scene cfg env).1 = 0) ∧
    (env.r2.ok = false →
      countEv isSaveCompleteCall (gigascapeSave scene cfg env).1 = 0) := by
  constructor
  · intro hr
    constructor
    · rw [countEv_gigascapeSave_eq isPut scene cfg env rfl rfl
        (fun _ _ _ => rfl)]
      exact countEv_tryBody_zero_of_r1 isPut scene cfg env hr rfl
        (fun _ _ => rfl)
    · rw [countEv_gigascapeSave_eq isSaveCompleteCall scene cfg env rfl rfl
        (fun _ _ _ => rfl)]
      exact countEv_tryBody_zero_of_r1 isSaveCompleteCall scene cfg env hr rfl
        (fun _ _ => rfl)
  · intro hr
    rw [countEv_gigascapeSave_eq isSaveCompleteCall scene cfg env rfl rfl
      (fun _ _ _ => rfl)]
    exact countEv_complete_tryBody_of_r2 scene cfg env hr

/-- Witness for C1 at a concrete failing environment (phase 1 and phase 2
both non-success). -/
theorem save_phase_sequencing_witness :
    countEv isPut
        (gigascapeSave ⟨[⟨true, 1⟩]⟩ ⟨("s"), ("w"), ("o"), ("t")⟩
          ⟨⟨none, some 3⟩, ⟨false, 403, JsonBody.parsed none⟩, ⟨("u"), ("p")⟩,
            ⟨false, 500, JsonBody.unparseable⟩,
            ⟨true, 200, JsonBody.parsed none⟩, none, none⟩).1 = 0 ∧
    countEv isSaveCompleteCall
        (gigascapeSave ⟨[⟨true, 1⟩]⟩ ⟨("s"), ("w"), ("o"), ("t")⟩
          ⟨⟨none, some 3⟩, ⟨false, 403, JsonBody.parsed none⟩, ⟨("u"), ("p")⟩,
            ⟨false, 500, JsonBody.unparseable⟩,
            ⟨true, 200, JsonBody.parsed none⟩, none, none⟩).1 = 0 := by
  have h := save_phase_sequencing ⟨[⟨true, 1⟩]⟩ ⟨("s"), ("w"), ("o"), ("t")⟩
    ⟨⟨none, some 3⟩, ⟨false, 403, JsonBody.parsed none⟩, ⟨("u"), ("p")⟩,
      ⟨false, 500, JsonBody.unparseable⟩,
      ⟨true, 200, JsonBody.parsed none⟩, none, none⟩
  exact ⟨(h.1 rfl).1, (h.1 rfl).2⟩

/-- C2: when the set of visible, non-empty splat elements is empty, the save
attempt raises exactly `No splats to save`, the external serializer is never
invoked, no fetch call at all appears in the trace, and the error popup
displays that message. -/
theorem save_empty_scene (scene : SceneModel) (cfg : GsConfig) (env : SaveEnv)
    (h : visibleNonEmptySplats scene = []) :
    countEv isFetchEv (gigascapeSave scene cfg env).1 = 0 ∧
    countEv isSerializeCall (gigascapeSave scene cfg env).1 = 0 ∧
    (saveTryBody scene cfg env).2 = Except.error ⟨some ("No splats to save")⟩ ∧
    Ev.popup ("error") ("Save Failed") ("No splats to save") ∈
      (gigascapeSave scene cfg env).1 := by
  have hser : serializeSceneToPly scene env.serializer =
      ([], Except.error ⟨some ("No splats to save")⟩) := by
    simp [serializeSceneToPly, h]
  have htb : saveTryBody scene cfg env =
      ([], Except.error ⟨some ("No splats to save")⟩) := by
    unfold saveTryBody
    rw [hser]
    rfl
  have htr := gigascapeSave_trace scene cfg env
  rw [htb] at htr
  refine ⟨?_, ?_, by rw [htb], ?_⟩ <;> rw [htr] <;>
    simp [countEv, errMessage, jsOrElse, isFetchEv, isSerializeCall]

/-- Witness for C2 at a concrete scene holding only an invisible element. -/
theorem save_empty_scene_witness :
    countEv isFetchEv
        (gigascapeSave ⟨[⟨false, 7⟩]⟩ ⟨("s"), ("w"), ("o"), ("t")⟩
          ⟨⟨none, some 3⟩, ⟨true, 200, JsonBody.parsed none⟩, ⟨("u"), ("p")⟩,
            ⟨true, 200, JsonBody.parsed none⟩,
            ⟨true, 200, JsonBody.parsed none⟩, none, none⟩).1 = 0 ∧
    Ev.popup ("error") ("Save Failed") ("No splats to save") ∈
      (gigascapeSave ⟨[⟨false, 7⟩]⟩ ⟨("s"), ("w"), ("o"), ("t")⟩
        ⟨⟨none, some 3⟩, ⟨true, 200, JsonBody.parsed none⟩, ⟨("u"), ("p")⟩,
          ⟨true, 200, JsonBody.parsed none⟩,
          ⟨true, 200, JsonBody.parsed none⟩, none, none⟩).1 := by
  have h := save_empty_scene ⟨[⟨false, 7⟩]⟩ ⟨("s"), ("w"), ("o"), ("t")⟩
    ⟨⟨none, some 3⟩, ⟨true, 200, JsonBody.parsed none⟩, ⟨("u"), ("p")⟩,
      ⟨true, 200, JsonBody.parsed none⟩,
      ⟨true, 200, JsonBody.parsed none⟩, none, none⟩ (by decide)
  exact ⟨h.1, h.2.2.2⟩

/-- C3: every save invocation fires exactly one `startSpinner` and exactly
one `stopSpinner`, the former as the very first event of the trace and the
latter as the very last — on every exit path, including failures of any
phase and rejections thrown by the popup-display call itself. -/
theorem save_spinner_invariant (scene : SceneModel) (cfg : GsConfig)
    (env : SaveEnv) :
    countEv isStartSpinner (gigascapeSave scene cfg env).1 = 1 ∧
    countEv isStopSpinner (gigascapeSave scene cfg env).1 = 1 ∧
    (gigascapeSave scene cfg env).1.head? = some Ev.startSpinner ∧
    (gigascapeSave scene cfg env).1.getLast? = some Ev.stopSpinner := by
  have hs := countEv_saveTryBody_zero isStartSpinner scene cfg env rfl
    (fun _ _ => rfl) (fun _ _ => rfl) (fun _ _ => rfl) (fun _ _ _ => rfl)
  have ht := countEv_saveTryBody_zero isStopSpinner scene cfg env rfl
    (fun _ _ => rfl) (fun _ _ => rfl) (fun _ _ => rfl) (fun _ _ _ => rfl)
  have hs0 : (saveTryBody scene cfg env).1.filter isStartSpinner = [] :=
    List.length_eq_zero.mp (by simpa [countEv] using hs)
  have ht0 : (saveTryBody scene cfg env).1.filter isStopSpinner = [] :=
    List.length_eq_zero.mp (by simpa [countEv] using ht)
  have htr := gigascapeSave_trace scene cfg env
  refine ⟨?_, ?_, ?_, ?_⟩ <;> rw [htr]
  · cases h : (saveTryBody scene cfg env).2 <;>
      simp [h, countEv, List.filter_cons, List.filter_append, hs0,
        isStartSpinner]
  · cases h : (saveTryBody scene cfg env).2 <;>
      simp [h, countEv, List.filter_cons, List.filter_append, ht0,
        isStopSpinner]
  · rfl
  · rw [show Ev.startSpinner ::
        ((saveTryBody scene cfg env).1 ++
          ((match (saveTryBody scene cfg env).2 with
            | Except.ok _ => []
            | Except.error e =>
              [Ev.popup ("error") ("Save Failed") (errMessage e)]) ++
            [Ev.stopSpinner])) =
        (Ev.startSpinner ::
          ((saveTryBody scene cfg env).1 ++
            (match (saveTryBody scene cfg env).2 with
             | Except.ok _ => []
             | Except.error e =>
               [Ev.popup ("error") ("Save Failed") (errMessage e)]))) ++
          [Ev.stopSpinner] from by simp]
    exact List.getLast?_concat _

/-- C6: when serialization succeeds, all three HTTP calls succeed and the
success-popup display returns normally, the phase-3 confirmation carries
exactly the `storagePath` of the phase-1 ticket, the last displayed popup is
the informational success modal, and no rejection escapes the handler. -/
theorem save_success_storagePath (scene : SceneModel) (cfg : GsConfig)
    (env : SaveEnv) (n : Nat)
    (hsc : visibleNonEmptySplats scene ≠ [])
    (hrej : env.serializer.reject = none)
    (hout : env.serializer.output = some n)
    (h1 : env.r1.ok = true) (h2 : env.r2.ok = true) (h3 : env.r3.ok = true)
    (hpop : env.successPopupThrow = none) :
    Ev.fetchSaveComplete cfg.splatId env.ticket.storagePath ∈
      (gigascapeSave scene cfg env).1 ∧
    lastPopup (gigascapeSave scene cfg env).1 =
      some (Ev.popup ("info") ("Saved to GigaScape")
        ("Your edited splat has been saved. Return to your library to create tiles.")) ∧
    (gigascapeSave scene cfg env).2 = none := by
  have hsc0 : (visibleNonEmptySplats scene).length ≠ 0 := by
    simpa [List.length_eq_zero] using hsc
  have hser : serializeSceneToPly scene env.serializer =
      ([Ev.serializeCall], Except.ok n) := by
    simp [serializeSceneToPly, hsc0, hrej, hout]
  have htb : saveTryBody scene cfg env =
      ([Ev.serializeCall, Ev.fetchUploadUrl cfg.splatId n,
        Ev.fetchPut env.ticket.uploadUrl n,
        Ev.fetchSaveComplete cfg.splatId env.ticket.storagePath,
        Ev.popup ("info") ("Saved to GigaScape")
          ("Your edited splat has been saved. Return to your library to create tiles.")],
       Except.ok ()) := by
    unfold saveTryBody
    rw [hser]
    simp [bindE, getUploadUrl, h1, uploadToGcs, h2, notifySaveComplete, h3,
      invokeShowPopup, hpop]
  have htr := gigascapeSave_trace scene cfg env
  rw [htb] at htr
  refine ⟨?_, ?_, ?_⟩
  · rw [htr]; simp
  · rw [htr]; simp [lastPopup, isPopup]
  · simp [gigascapeSave, htb]

/-- Witness for C6 at a concrete scene and all-success environment. -/
theorem save_success_storagePath_witness :
    Ev.fetchSaveComplete ("s") ("path9") ∈
      (gigascapeSave ⟨[⟨true, 1⟩]⟩ ⟨("s"), ("w"), ("o"), ("t")⟩
        ⟨⟨none, some 3⟩, ⟨true, 200, JsonBody.parsed none⟩,
          ⟨("u"), ("path9")⟩, ⟨true, 200, JsonBody.parsed none⟩,
          ⟨true, 200, JsonBody.parsed none⟩, none, none⟩).1 ∧
    lastPopup
        (gigascapeSave ⟨[⟨true, 1⟩]⟩ ⟨("s"), ("w"), ("o"), ("t")⟩
          ⟨⟨none, some 3⟩, ⟨true, 200, JsonBody.parsed none⟩,
            ⟨("u"), ("path9")⟩, ⟨true, 200, JsonBody.parsed none⟩,
            ⟨true, 200, JsonBody.parsed none⟩, none, none⟩).1 =
      some (Ev.popup ("info") ("Saved to GigaScape")
        ("Your edited splat has been saved. Return to your library to create tiles.")) := by
  have h := save_success_storagePath ⟨[⟨true, 1⟩]⟩ ⟨("s"), ("w"), ("o"), ("t")⟩
    ⟨⟨none, some 3⟩, ⟨true, 200, JsonBody.parsed none⟩,
      ⟨("u"), ("path9")⟩, ⟨true, 200, JsonBody.parsed none⟩,
      ⟨true, 200, JsonBody.parsed none⟩, none, none⟩ 3 (by decide) rfl rfl
    rfl rfl rfl rfl
  exact ⟨h.1, h.2.1⟩

end GigaScape
